import Mathlib

/-!
Verification development for the parkapi-sources converters
(kienzler, bfrk_bw, radvis_bw).

The Python sources are shallowly embedded: validataclass records become
structures, `Optional` fields become `Option`, Python `dict`s produced by
`to_dicts` become association lists, the external HTTP fetch and the
`pyproj` projection transform become explicit function parameters, and
`datetime.now()` becomes an explicit `now` parameter.  Fallible
validation is an `Except`.
-/

namespace ParkApi

/-- A JSON-like raw value, as found in provider payload dictionaries. -/
inductive Value where
  | str (s : String)
  | int (n : Int)
  | bool (b : Bool)
  | null
deriving DecidableEq, Repr

/-- A raw provider record: a dictionary of string keys to raw values. -/
abbrev RawRecord := List (String × Value)

/-- Python `dict.get(key)`: the value at the first matching key, else `none`
(keys in the records we build are unique, so first match is dict semantics). -/
def RawRecord.get (r : RawRecord) (k : String) : Option Value :=
  (r.find? (fun p => p.1 == k)).map (fun p => p.2)

/-- Canonical parking-site type enum.  The members are those used by the
sources under verification (`parkapi_sources.models.enums.ParkingSiteType`). -/
inductive ParkingSiteType where
  | STANDS | LOCKERS | WALL_LOOPS | TWO_TIER | BUILDING | SHED | OTHER | LOCKBOX
deriving DecidableEq, Repr

/-- Canonical purpose enum (`parkapi_sources.models.enums.PurposeType`). -/
inductive PurposeType where
  | BIKE | CAR | ITEM
deriving DecidableEq, Repr

/-- Canonical supervision enum.  `NO` and `VIDEO` are used by the sources;
`UNKNOWN` is the further member the spec lists for this enum
(`supervision level (enumerated: none, video, unknown)`). -/
inductive SupervisionType where
  | NO | VIDEO | UNKNOWN
deriving DecidableEq, Repr

/-- Canonical static parking-site record
(`parkapi_sources.models.StaticParkingSiteInput`).  Unset/absent fields are
`none`; coordinates are exact decimals, embedded as rationals. -/
structure StaticParkingSiteInput where
  uid : String
  name : Option String := none
  operator_name : Option String := none
  description : Option String := none
  address : Option String := none
  lat : Option ℚ := none
  lon : Option ℚ := none
  capacity : Option Int := none
  capacity_charging : Option Int := none
  type : Option ParkingSiteType := none
  purpose : Option PurposeType := none
  supervision_type : Option SupervisionType := none
  is_covered : Option Bool := none
  related_location : Option String := none
  group_uid : Option String := none
  tags : List String := []
  has_realtime_data : Option Bool := none
  public_url : Option String := none
  static_data_updated_at : Option Nat := none
deriving DecidableEq, Repr

/-- Canonical realtime record (`parkapi_sources.models.RealtimeParkingSiteInput`). -/
structure RealtimeParkingSiteInput where
  uid : String
  realtime_capacity : Option Int := none
  realtime_free_capacity : Option Int := none
  realtime_data_updated_at : Option Nat := none
deriving DecidableEq, Repr

/-- A collected per-record import error (`ImportParkingSiteException`),
built exactly from the three keyword arguments the converters pass. -/
structure ImportParkingSiteException where
  source_uid : String
  parking_site_uid : Option Value
  message : String
deriving DecidableEq, Repr

/-- Keep the canonical value when it is set, otherwise take the overlay value. -/
def fillOpt {α : Type} (c o : Option α) : Option α :=
  match c with
  | some v => some v
  | none => o

/-- Modelled from the spec: `KienzlerInput.extend_static_parking_site_input`
(file `kienzler/models.py` is not under src/).  Faithful to the spec's merge
contract: "apply every overlay field whose corresponding canonical field is
currently unset/empty; canonical fields that are already populated are never
overwritten".  The identifier is the match key and is kept. -/
def extendStatic (c o : StaticParkingSiteInput) : StaticParkingSiteInput :=
  { uid := c.uid
    name := fillOpt c.name o.name
    operator_name := fillOpt c.operator_name o.operator_name
    description := fillOpt c.description o.description
    address := fillOpt c.address o.address
    lat := fillOpt c.lat o.lat
    lon := fillOpt c.lon o.lon
    capacity := fillOpt c.capacity o.capacity
    capacity_charging := fillOpt c.capacity_charging o.capacity_charging
    type := fillOpt c.type o.type
    purpose := fillOpt c.purpose o.purpose
    supervision_type := fillOpt c.supervision_type o.supervision_type
    is_covered := fillOpt c.is_covered o.is_covered
    related_location := fillOpt c.related_location o.related_location
    group_uid := fillOpt c.group_uid o.group_uid
    tags := if c.tags = [] then o.tags else c.tags
    has_realtime_data := fillOpt c.has_realtime_data o.has_realtime_data
    public_url := fillOpt c.public_url o.public_url
    static_data_updated_at := fillOpt c.static_data_updated_at o.static_data_updated_at }

/-- Modelled from the spec: the validated Kienzler source record
(`KienzlerInput`, file `kienzler/models.py` is not under src/).  The converter
code under src/ uses its `id` attribute (stringified as the uid) and its
mapping methods; the remaining fields follow the spec's canonical schema. -/
structure KienzlerInput where
  id : String
  name : String
  capacity : Int
  free : Int
deriving DecidableEq, Repr

/-- Modelled from the spec: `KienzlerInput.to_static_parking_site(public_url)`
(file `kienzler/models.py` is not under src/): a pure per-source mapping into
the canonical static record.  Kienzler data carries no coordinates; those are
left unset, to be supplied by the GeoJSON overlay. -/
def KienzlerInput.to_static_parking_site (k : KienzlerInput) (public_url : String) :
    StaticParkingSiteInput :=
  { uid := k.id
    name := some k.name
    capacity := some k.capacity
    has_realtime_data := some true
    public_url := some public_url
    static_data_updated_at := some 0 }

/-- Modelled from the spec: `KienzlerInput.to_realtime_parking_site()`
(file `kienzler/models.py` is not under src/). -/
def KienzlerInput.to_realtime_parking_site (k : KienzlerInput) : RealtimeParkingSiteInput :=
  { uid := k.id
    realtime_capacity := some k.capacity
    realtime_free_capacity := some k.free
    realtime_data_updated_at := some 0 }

/-- Modelled from the spec: `DataclassValidator(KienzlerInput).validate`
(the `KienzlerInput` field schema lives in `kienzler/models.py`, not under
src/).  Per the spec's validation contract, string fields require strings and
numeric fields reject non-numeric input; required fields must be present. -/
def validateKienzler (r : RawRecord) : Except String KienzlerInput :=
  match r.get "uid", r.get "name", r.get "capacity", r.get "free" with
  | some (.str uid), some (.str name), some (.int capacity), some (.int free) =>
      .ok { id := uid, name := name, capacity := capacity, free := free }
  | _, _, _, _ => .error "invalid field types"

/-- The `ImportParkingSiteException` built at converter.py lines 87-93: the
`parking_site_uid` is the raw dictionary's `uid` entry. -/
def mkKienzlerError (source_uid : String) (r : RawRecord) (e : String) :
    ImportParkingSiteException :=
  { source_uid := source_uid
    parking_site_uid := r.get "uid"
    message := "validation error: " ++ e }

/-- The record loop of `KienzlerBasePullConverter._get_kienzler_parking_sites`
(converter.py lines 83-93): try to validate each raw dictionary, appending the
success or an `ImportParkingSiteException` and continuing with the rest.  The
item validator (`DataclassValidator(KienzlerInput).validate`, whose schema is
in the absent `kienzler/models.py`) is a parameter. -/
def kienzlerLoop (validate : RawRecord → Except String KienzlerInput) (source_uid : String) :
    List RawRecord → List KienzlerInput × List ImportParkingSiteException →
      List KienzlerInput × List ImportParkingSiteException
  | [], acc => acc
  | r :: rest, (sites, errs) =>
    match validate r with
    | .ok k => kienzlerLoop validate source_uid rest (sites ++ [k], errs)
    | .error e =>
        kienzlerLoop validate source_uid rest (sites, errs ++ [mkKienzlerError source_uid r e])

/-- `KienzlerBasePullConverter._get_kienzler_parking_sites` (converter.py
lines 78-94), with the already-fetched raw payload as parameter. -/
def kienzlerParkingSites (validate : RawRecord → Except String KienzlerInput)
    (source_uid : String) (raw : List RawRecord) :
    List KienzlerInput × List ImportParkingSiteException :=
  kienzlerLoop validate source_uid raw ([], [])

/-- The overlay index built at converter.py lines 49-51: a Python dict filled
by iterating the GeoJSON records, so a later record with the same uid wins.
Lookup is by string equality on the uid. -/
def geoLookup (geo : List StaticParkingSiteInput) (uid : String) :
    Option StaticParkingSiteInput :=
  geo.reverse.find? (fun g => g.uid == uid)

/-- `KienzlerBasePullConverter.get_static_parking_sites` (converter.py lines
39-67).  The raw payload and the overlay fetch result stand in for the two
HTTP fetches.  Each Kienzler record is mapped to a canonical static record;
with `use_geojson` the loop at lines 56-65 looks its uid up in the overlay
index, skipping records whose uid is unknown there and otherwise extending
the record's static data via `extend_static_parking_site_input` (overlay
errors were already appended to the error list at line 53).  The mutation of
the produced static inputs through the Kienzler records is modelled from the
spec (Scenario B), `kienzler/models.py` being absent from src/. -/
def kienzlerGetStaticParkingSites (validate : RawRecord → Except String KienzlerInput)
    (source_uid public_url : String) (use_geojson : Bool)
    (raw : List RawRecord)
    (geojsonResult : List StaticParkingSiteInput × List ImportParkingSiteException) :
    List StaticParkingSiteInput × List ImportParkingSiteException :=
  let kienzler_parking_sites := (kienzlerParkingSites validate source_uid raw).1
  let static_parking_site_errors := (kienzlerParkingSites validate source_uid raw).2
  if use_geojson then
    let geojson_parking_sites := geojsonResult.1
    let geojson_parking_site_errors := geojsonResult.2
    let merged := kienzler_parking_sites.map (fun k =>
      match geoLookup geojson_parking_sites k.id with
      | none => k.to_static_parking_site public_url
      | some g => extendStatic (k.to_static_parking_site public_url) g)
    (merged, static_parking_site_errors ++ geojson_parking_site_errors)
  else
    (kienzler_parking_sites.map (fun k => k.to_static_parking_site public_url),
      static_parking_site_errors)

/-- Python `range(0, stop, step)` for positive `step`: the multiples of
`step` below `stop`, of which there are exactly `⌈stop / step⌉`. -/
def pythonRange (stop step : Nat) : List Nat :=
  (List.range ((stop + step - 1) / step)).map (fun j => j * step)

/-- `KienzlerBasePullConverter._request` (converter.py lines 96-113).  The
configured comma-separated id list is split, and for `i in range(0, len(ids),
25)` one POST is issued with the slice `ids[i : i + 25]`; the JSON responses
are concatenated in loop order.  The HTTP call is the function parameter
`fetch`, taking the id chunk sent in the request body. -/
def kienzlerRequest (fetch : List String → List RawRecord) (idsConfig : String) :
    List RawRecord :=
  let ids := idsConfig.splitOn ","
  (pythonRange ids.length 25).foldl (fun acc i => acc ++ fetch ((ids.drop i).take 25)) []

/-- The `ImportParkingSiteException` built at base_converter.py lines 37-43:
the `parking_site_uid` is the raw dictionary's `infraid` entry. -/
def mkBfrkError (source_uid : String) (r : RawRecord) (e : String) :
    ImportParkingSiteException :=
  { source_uid := source_uid
    parking_site_uid := r.get "infraid"
    message := "validation error: " ++ e }

/-- The record loop of `BfrkBasePushConverter.get_static_parking_sites`
(base_converter.py lines 33-46): validate each dictionary, on failure append
an `ImportParkingSiteException` and `continue`, on success append the mapped
static record.  `bfrk_validator` is an abstract property and `BfrkBaseInput`
with `to_static_parking_site_input` lives in the absent `base_models.py`, so
the validated type, the validator and the mapping are parameters. -/
def bfrkLoop {α : Type} (source_uid : String) (validate : RawRecord → Except String α)
    (toStatic : α → StaticParkingSiteInput) :
    List RawRecord → List StaticParkingSiteInput × List ImportParkingSiteException →
      List StaticParkingSiteInput × List ImportParkingSiteException
  | [], acc => acc
  | r :: rest, (sites, errs) =>
    match validate r with
    | .ok a => bfrkLoop source_uid validate toStatic rest (sites ++ [toStatic a], errs)
    | .error e =>
        bfrkLoop source_uid validate toStatic rest (sites, errs ++ [mkBfrkError source_uid r e])

/-- `BfrkBasePushConverter.get_static_parking_sites` (base_converter.py lines
25-48), with the fetched JSON array as parameter. -/
def bfrkGetStaticParkingSites {α : Type} (source_uid : String)
    (validate : RawRecord → Except String α) (toStatic : α → StaticParkingSiteInput)
    (input_dicts : List RawRecord) :
    List StaticParkingSiteInput × List ImportParkingSiteException :=
  bfrkLoop source_uid validate toStatic input_dicts ([], [])

/-- The state of a BFRK converter instance: the source description fields the
class reads (`self.source_info`). -/
structure BfrkConverterState where
  source_uid : String
  source_url : String
deriving DecidableEq, Repr

/-- `BfrkBasePushConverter.get_realtime_parking_sites` (base_converter.py
lines 50-51): `return [], []`. -/
def bfrkGetRealtimeParkingSites (_ : BfrkConverterState) :
    List RealtimeParkingSiteInput × List ImportParkingSiteException :=
  ([], [])

/-- `OrganizationType` (radvis_bw/models.py lines 21-23). -/
inductive OrganizationType where
  | GEMEINDE | KREIS
deriving DecidableEq, Repr

/-- `RadvisSupervisionType` (radvis_bw/models.py lines 26-29). -/
inductive RadvisSupervisionType where
  | KEINE | UNBEKANNT | VIDEO
deriving DecidableEq, Repr

/-- The dictionary literal inside `RadvisSupervisionType.to_supervision_type`
(radvis_bw/models.py lines 32-35). -/
def radvisSupervisionMap : RadvisSupervisionType → Option SupervisionType
  | .KEINE => some .NO
  | .VIDEO => some .VIDEO
  | .UNBEKANNT => none

/-- `RadvisSupervisionType.to_supervision_type` (radvis_bw/models.py lines
31-35): the dictionary lookup `.get(self)` with no default, so a source value
without an entry yields `None`. -/
def RadvisSupervisionType.to_supervision_type (t : RadvisSupervisionType) :
    Option SupervisionType :=
  radvisSupervisionMap t

/-- `LocationType` (radvis_bw/models.py lines 38-44). -/
inductive LocationType where
  | OEFFENTLICHE_EINRICHTUNG | BIKE_AND_RIDE | UNBEKANNT | SCHULE | STRASSENRAUM | SONSTIGES
deriving DecidableEq, Repr

/-- `LocationType.to_related_location` (radvis_bw/models.py lines 46-52):
dictionary lookup with no default. -/
def LocationType.to_related_location : LocationType → Option String
  | .OEFFENTLICHE_EINRICHTUNG => some "Öffentliche Einrichtung"
  | .BIKE_AND_RIDE => some "Bike and Ride"
  | .SCHULE => some "Schule"
  | .STRASSENRAUM => some "Straßenraum"
  | .UNBEKANNT => none
  | .SONSTIGES => none

/-- `RadvisParkingSiteType` (radvis_bw/models.py lines 55-62). -/
inductive RadvisParkingSiteType where
  | ANLEHNBUEGEL | FAHRRADBOX | VORDERRADANSCHLUSS | SONSTIGE | DOPPELSTOECKIG
  | FAHRRADPARKHAUS | SAMMELANLAGE
deriving DecidableEq, Repr

/-- The dictionary literal inside `RadvisParkingSiteType.to_parking_site_type`
(radvis_bw/models.py lines 65-72); `SONSTIGE` has no entry. -/
def radvisParkingSiteTypeMap : RadvisParkingSiteType → Option ParkingSiteType
  | .ANLEHNBUEGEL => some .STANDS
  | .FAHRRADBOX => some .LOCKERS
  | .VORDERRADANSCHLUSS => some .WALL_LOOPS
  | .DOPPELSTOECKIG => some .TWO_TIER
  | .FAHRRADPARKHAUS => some .BUILDING
  | .SAMMELANLAGE => some .SHED
  | .SONSTIGE => none

/-- `RadvisParkingSiteType.to_parking_site_type` (radvis_bw/models.py lines
64-72): the dictionary lookup `.get(self, ParkingSiteType.OTHER)`. -/
def RadvisParkingSiteType.to_parking_site_type (t : RadvisParkingSiteType) :
    ParkingSiteType :=
  (radvisParkingSiteTypeMap t).getD .OTHER

/-- `StatusType` (radvis_bw/models.py lines 75-76). -/
inductive StatusType where
  | AKTIV
deriving DecidableEq, Repr

/-- `RadvisFeaturePropertiesInput` (radvis_bw/models.py lines 79-101):
the validated feature properties.  `Noneable`/`ExcelNoneable` fields are
`Option`s. -/
structure RadvisFeaturePropertiesInput where
  id : Int
  betreiber : String
  quell_system : String
  externe_id : Option String
  zustaendig : Option String
  zustaendig_orga_typ : Option OrganizationType
  anzahl_stellplaetze : Int
  anzahl_schliessfaecher : Option Int
  anzahl_lademoeglichkeiten : Option Int
  ueberwacht : RadvisSupervisionType
  abstellanlagen_ort : LocationType
  groessenklasse : Option String
  stellplatzart : RadvisParkingSiteType
  ueberdacht : Bool
  gebuehren_pro_tag : Option Int
  gebuehren_pro_monat : Option Int
  gebuehren_pro_jahr : Option Int
  beschreibung : Option String
  weitere_information : Option String
  status : StatusType
deriving DecidableEq, Repr

/-- A typed value inside a dictionary produced by `to_dicts`. -/
inductive DVal where
  | s (v : String)
  | os (v : Option String)
  | i (v : Int)
  | oi (v : Option Int)
  | b (v : Bool)
  | pst (v : ParkingSiteType)
  | pt (v : PurposeType)
  | osv (v : Option SupervisionType)
  | tl (v : List String)
  | time (v : Nat)
deriving DecidableEq, Repr

/-- A Python dictionary as built by `to_dicts`: keys in insertion order. -/
abbrev PyDict := List (String × DVal)

/-- Dictionary lookup (keys in the dictionaries `to_dicts` builds are
unique, so first match agrees with Python dict semantics). -/
def dget (d : PyDict) (k : String) : Option DVal :=
  (d.find? (fun p => p.1 == k)).map (fun p => p.2)

/-- Python truthiness of an `Optional[str]`: `None` and `''` are falsy. -/
def strTruthy : Option String → Bool
  | some s => s != ""
  | none => false

/-- Python truthiness of an `Optional[int]`: `None` and `0` are falsy. -/
def intTruthy : Option Int → Bool
  | some n => n != 0
  | none => false

/-- The description computation at the head of
`RadvisFeaturePropertiesInput.to_dicts` (radvis_bw/models.py lines 104-112):
join the two free-text fields when both are truthy, otherwise take the truthy
one, then strip `'\r'` and turn `'\n'` into spaces. -/
def mkRadvisDescription (b w : Option String) : Option String :=
  let d : Option String :=
    if strTruthy b && strTruthy w then some ((b.getD "") ++ " " ++ (w.getD ""))
    else if strTruthy b then b
    else if strTruthy w then w
    else none
  d.map (fun s => (s.replace "\r" "").replace "\n" " ")

/-- The `base_data` dictionary of `to_dicts` (radvis_bw/models.py lines
114-123); `now` stands for `datetime.now(tz=timezone.utc)`. -/
def radvisBaseData (p : RadvisFeaturePropertiesInput) (now : Nat) : PyDict :=
  [("operator_name", .s p.betreiber),
   ("description", .os (mkRadvisDescription p.beschreibung p.weitere_information)),
   ("has_realtime_data", .b false),
   ("is_covered", .b p.ueberdacht),
   ("related_location", .os p.abstellanlagen_ort.to_related_location),
   ("supervision_type", .osv p.ueberwacht.to_supervision_type),
   ("tags", .tl (if strTruthy p.groessenklasse then ["BW_SIZE_" ++ p.groessenklasse.getD ""] else [])),
   ("static_data_updated_at", .time now)]

/-- `RadvisFeaturePropertiesInput.to_dicts` (radvis_bw/models.py lines
103-149).  The first dictionary is the parent record; when
`anzahl_schliessfaecher` is truthy, `group_uid` is assigned into the parent
(a new key, appended in dict insertion order) and a second `-lockbox`
dictionary is appended. -/
def RadvisFeaturePropertiesInput.to_dicts (p : RadvisFeaturePropertiesInput) (now : Nat) :
    List PyDict :=
  let d0 : PyDict :=
    [("uid", .s (toString p.id)),
     ("name", .s "Abstellanlage"),
     ("type", .pst p.stellplatzart.to_parking_site_type),
     ("capacity", .i p.anzahl_stellplaetze),
     ("capacity_charging", .oi p.anzahl_lademoeglichkeiten),
     ("purpose", .pt .BIKE)] ++ radvisBaseData p now
  if intTruthy p.anzahl_schliessfaecher then
    [d0 ++ [("group_uid", .s (toString p.id))],
     [("uid", .s (toString p.id ++ "-lockbox")),
      ("group_uid", .s (toString p.id)),
      ("name", .s "Schliessfach"),
      ("type", .pst .LOCKBOX),
      ("capacity", .oi p.anzahl_schliessfaecher),
      ("purpose", .pt .ITEM)] ++ radvisBaseData p now]
  else
    [d0]

/-- The banker's rounding of a rational to an integer, as performed by
Python's `decimal` module under its default `ROUND_HALF_EVEN` mode: round to
the nearest integer, ties to the even neighbour. -/
def roundHalfEven (y : ℚ) : ℤ :=
  if y - ⌊y⌋ < 1 / 2 then ⌊y⌋
  else if 1 / 2 < y - ⌊y⌋ then ⌊y⌋ + 1
  else if ⌊y⌋ % 2 = 0 then ⌊y⌋ else ⌊y⌋ + 1

/-- `Decimal(x).quantize(Decimal('1.0000000'))` (radvis_bw/models.py lines
168-169): quantization to exactly 7 fractional decimal digits with the
context's default `ROUND_HALF_EVEN` rounding.  Python `Decimal` arithmetic is
exact, so it is embedded on rationals. -/
def quantize7 (x : ℚ) : ℚ :=
  (roundHalfEven (x * 10 ^ 7) : ℚ) / 10 ^ 7

/-- The geometry of a GeoJSON point feature: `coordinates` is `(lon, lat)`. -/
structure GeojsonGeometry where
  coordinates : ℚ × ℚ
deriving DecidableEq, Repr

/-- `RadvisFeatureInput` (radvis_bw/models.py lines 152-154): a GeoJSON
feature with validated Radvis properties. -/
structure RadvisFeatureInput where
  geometry : GeojsonGeometry
  properties : RadvisFeaturePropertiesInput
deriving DecidableEq, Repr

/-- Modelled from the spec: the `StaticParkingSiteInput(**property_dict,
lat=..., lon=...)` construction (the `StaticParkingSiteInput` validataclass
is not under src/): each dictionary entry populates the field of the same
name, absent keys keep the field unset. -/
def staticFromRadvisDict (d : PyDict) (lat0 lon0 : ℚ) : StaticParkingSiteInput :=
  { uid := match dget d "uid" with | some (.s v) => v | _ => ""
    name := match dget d "name" with | some (.s v) => some v | _ => none
    operator_name := match dget d "operator_name" with | some (.s v) => some v | _ => none
    description := match dget d "description" with | some (.os v) => v | _ => none
    lat := some lat0
    lon := some lon0
    capacity := match dget d "capacity" with
      | some (.i v) => some v
      | some (.oi v) => v
      | _ => none
    capacity_charging := match dget d "capacity_charging" with | some (.oi v) => v | _ => none
    type := match dget d "type" with | some (.pst v) => some v | _ => none
    purpose := match dget d "purpose" with | some (.pt v) => some v | _ => none
    supervision_type := match dget d "supervision_type" with | some (.osv v) => v | _ => none
    is_covered := match dget d "is_covered" with | some (.b v) => some v | _ => none
    related_location := match dget d "related_location" with | some (.os v) => v | _ => none
    group_uid := match dget d "group_uid" with | some (.s v) => some v | _ => none
    tags := match dget d "tags" with | some (.tl v) => v | _ => []
    has_realtime_data := match dget d "has_realtime_data" with | some (.b v) => some v | _ => none
    static_data_updated_at := match dget d "static_data_updated_at" with
      | some (.time v) => some v
      | _ => none }

/-- `RadvisFeatureInput.to_static_parking_site_inputs_with_proj`
(radvis_bw/models.py lines 156-173).  For each dictionary from `to_dicts`, a
static record is built with `lat`/`lon` taken from the feature geometry, the
inverse projection transform (the `pyproj.Proj` call with `inverse=True`,
embedded as the function parameter `projInv` on `(lon, lat)` pairs) is
applied to them, and both axes are quantized to 7 fractional digits. -/
def RadvisFeatureInput.to_static_parking_site_inputs_with_proj
    (f : RadvisFeatureInput) (projInv : ℚ × ℚ → ℚ × ℚ) (now : Nat) :
    List StaticParkingSiteInput :=
  (f.properties.to_dicts now).map (fun d =>
    let s0 := staticFromRadvisDict d f.geometry.coordinates.2 f.geometry.coordinates.1
    let c := projInv (s0.lon.getD 0, s0.lat.getD 0)
    { s0 with lon := some (quantize7 c.1), lat := some (quantize7 c.2) })

/-- `Except.ok` contents, or `none` on an error. -/
def exceptToOption {ε α : Type} : Except ε α → Option α
  | .ok a => some a
  | .error _ => none

/-- Whether an `Except` holds a success. -/
def exceptIsOk {ε α : Type} : Except ε α → Bool
  | .ok _ => true
  | .error _ => false

/-- The error the Kienzler record loop emits for one raw record, or `none`
when the record validates. -/
def kienzlerErr (validate : RawRecord → Except String KienzlerInput)
    (source_uid : String) (r : RawRecord) : Option ImportParkingSiteException :=
  match validate r with
  | .ok _ => none
  | .error e => some (mkKienzlerError source_uid r e)

/-- The error the BFRK record loop emits for one raw record, or `none` when
the record validates. -/
def bfrkErr {α : Type} (validate : RawRecord → Except String α)
    (source_uid : String) (r : RawRecord) : Option ImportParkingSiteException :=
  match validate r with
  | .ok _ => none
  | .error e => some (mkBfrkError source_uid r e)

/-- The id chunks `_request` sends, written as the claim describes them:
consecutive slices `ids[i : i + 25]` of the split configuration value, in
order. -/
def kienzlerChunks (idsConfig : String) : List (List String) :=
  let ids := idsConfig.splitOn ","
  (pythonRange ids.length 25).map (fun i => (ids.drop i).take 25)

/-- A well-formed Kienzler raw record with the given uid. -/
def kienzlerRawOk (uid : String) : RawRecord :=
  [("uid", .str uid), ("name", .str ("Box " ++ uid)), ("capacity", .int 10), ("free", .int 2)]

/-- A Kienzler raw record whose required numeric `capacity` field holds a
string instead of a number. -/
def kienzlerRawBadCapacity : RawRecord :=
  [("uid", .str "id3"), ("name", .str "Box id3"), ("capacity", .str "viele"), ("free", .int 2)]

/-- Scenario C batch: 5 records, the third malformed. -/
def scenarioCBatch : List RawRecord :=
  [kienzlerRawOk "id1", kienzlerRawOk "id2", kienzlerRawBadCapacity,
   kienzlerRawOk "id4", kienzlerRawOk "id5"]

/-- Scenario B batch: 5 well-formed records. -/
def scenarioBBatch : List RawRecord :=
  [kienzlerRawOk "id1", kienzlerRawOk "id2", kienzlerRawOk "id3",
   kienzlerRawOk "id4", kienzlerRawOk "id5"]

/-- A GeoJSON overlay record carrying coordinates and an address. -/
def geoOverlayEx (uid : String) (lat lon : ℚ) : StaticParkingSiteInput :=
  { uid := uid, lat := some lat, lon := some lon, address := some ("Addr " ++ uid) }

/-- Scenario B overlay data: one overlay record per batch identifier. -/
def scenarioBGeo : List StaticParkingSiteInput :=
  [geoOverlayEx "id1" 49 8, geoOverlayEx "id2" 49 9, geoOverlayEx "id3" 48 8,
   geoOverlayEx "id4" 48 9, geoOverlayEx "id5" 47 8]

/-- A Radvis properties record that reports 4 lockers besides its 12 stands. -/
def radvisPropsEx : RadvisFeaturePropertiesInput :=
  { id := 7, betreiber := "Stadt", quell_system := "RadVIS", externe_id := none,
    zustaendig := none, zustaendig_orga_typ := none, anzahl_stellplaetze := 12,
    anzahl_schliessfaecher := some 4, anzahl_lademoeglichkeiten := none,
    ueberwacht := .KEINE, abstellanlagen_ort := .SCHULE, groessenklasse := none,
    stellplatzart := .ANLEHNBUEGEL, ueberdacht := true, gebuehren_pro_tag := none,
    gebuehren_pro_monat := none, gebuehren_pro_jahr := none, beschreibung := none,
    weitere_information := none, status := .AKTIV }

/-- A Radvis properties record with no lockers. -/
def radvisNoLockboxEx : RadvisFeaturePropertiesInput :=
  { radvisPropsEx with id := 8, anzahl_schliessfaecher := none }

/-- A Radvis feature whose geometry carries fractional coordinates. -/
def radvisFeatureEx : RadvisFeatureInput :=
  { geometry := { coordinates := (942561 / 100000, 4859763 / 100000) }
    properties := radvisNoLockboxEx }

theorem fillOpt_of_ne_none {α : Type} {c : Option α} (h : c ≠ none) (o : Option α) :
    fillOpt c o = c := by
  cases c with
  | none => exact absurd rfl h
  | some v => rfl

theorem fillOpt_none_left {α : Type} (o : Option α) : fillOpt none o = o := rfl

theorem kienzlerLoop_eq (validate : RawRecord → Except String KienzlerInput)
    (suid : String) (raw : List RawRecord)
    (sites : List KienzlerInput) (errs : List ImportParkingSiteException) :
    kienzlerLoop validate suid raw (sites, errs) =
      (sites ++ raw.filterMap (fun r => exceptToOption (validate r)),
       errs ++ raw.filterMap (kienzlerErr validate suid)) := by
  induction raw generalizing sites errs with
  | nil => simp [kienzlerLoop]
  | cons r rest ih =>
    cases h : validate r with
    | ok k =>
      simp [kienzlerLoop, h, ih, exceptToOption, kienzlerErr, List.filterMap_cons]
    | error e =>
      simp [kienzlerLoop, h, ih, exceptToOption, kienzlerErr, List.filterMap_cons]

theorem kienzlerParkingSites_eq (validate : RawRecord → Except String KienzlerInput)
    (suid : String) (raw : List RawRecord) :
    kienzlerParkingSites validate suid raw =
      (raw.filterMap (fun r => exceptToOption (validate r)),
       raw.filterMap (kienzlerErr validate suid)) := by
  unfold kienzlerParkingSites
  rw [kienzlerLoop_eq]
  simp

theorem bfrkLoop_eq {α : Type} (suid : String) (validate : RawRecord → Except String α)
    (toStatic : α → StaticParkingSiteInput) (raw : List RawRecord)
    (sites : List StaticParkingSiteInput) (errs : List ImportParkingSiteException) :
    bfrkLoop suid validate toStatic raw (sites, errs) =
      (sites ++ raw.filterMap (fun r => (exceptToOption (validate r)).map toStatic),
       errs ++ raw.filterMap (bfrkErr validate suid)) := by
  induction raw generalizing sites errs with
  | nil => simp [bfrkLoop]
  | cons r rest ih =>
    cases h : validate r with
    | ok a =>
      simp [bfrkLoop, h, ih, exceptToOption, bfrkErr, List.filterMap_cons]
    | error e =>
      simp [bfrkLoop, h, ih, exceptToOption, bfrkErr, List.filterMap_cons]

theorem bfrkGetStaticParkingSites_eq {α : Type} (suid : String)
    (validate : RawRecord → Except String α) (toStatic : α → StaticParkingSiteInput)
    (raw : List RawRecord) :
    bfrkGetStaticParkingSites suid validate toStatic raw =
      (raw.filterMap (fun r => (exceptToOption (validate r)).map toStatic),
       raw.filterMap (bfrkErr validate suid)) := by
  unfold bfrkGetStaticParkingSites
  rw [bfrkLoop_eq]
  simp

theorem kienzler_counts (validate : RawRecord → Except String KienzlerInput)
    (suid : String) (raw : List RawRecord) :
    (raw.filterMap (fun r => exceptToOption (validate r))).length +
      (raw.filterMap (kienzlerErr validate suid)).length = raw.length := by
  induction raw with
  | nil => simp
  | cons r rest ih =>
    cases h : validate r with
    | ok k =>
      have hOk : exceptToOption (validate r) = some k := by rw [h]; rfl
      have hErr : kienzlerErr validate suid r = none := by unfold kienzlerErr; rw [h]
      simp only [List.filterMap_cons, hOk, hErr, List.length_cons]
      omega
    | error e =>
      have hOk : exceptToOption (validate r) = none := by rw [h]; rfl
      have hErr : kienzlerErr validate suid r = some (mkKienzlerError suid r e) := by
        unfold kienzlerErr
        rw [h]
      simp only [List.filterMap_cons, hOk, hErr, List.length_cons]
      omega

theorem bfrk_counts {α : Type} (validate : RawRecord → Except String α)
    (toStatic : α → StaticParkingSiteInput) (suid : String) (raw : List RawRecord) :
    (raw.filterMap (fun r => (exceptToOption (validate r)).map toStatic)).length +
      (raw.filterMap (bfrkErr validate suid)).length = raw.length := by
  induction raw with
  | nil => simp
  | cons r rest ih =>
    cases h : validate r with
    | ok a =>
      have hOk : (exceptToOption (validate r)).map toStatic = some (toStatic a) := by
        rw [h]
        rfl
      have hErr : bfrkErr validate suid r = none := by unfold bfrkErr; rw [h]
      simp only [List.filterMap_cons, hOk, hErr, List.length_cons]
      omega
    | error e =>
      have hOk : (exceptToOption (validate r)).map toStatic = none := by rw [h]; rfl
      have hErr : bfrkErr validate suid r = some (mkBfrkError suid r e) := by
        unfold bfrkErr
        rw [h]
      simp only [List.filterMap_cons, hOk, hErr, List.length_cons]
      omega

theorem kienzler_all_ok_length (validate : RawRecord → Except String KienzlerInput)
    (raw : List RawRecord) (h : ∀ r ∈ raw, exceptIsOk (validate r) = true) :
    (raw.filterMap (fun r => exceptToOption (validate r))).length = raw.length := by
  induction raw with
  | nil => simp
  | cons r rest ih =>
    have hr := h r (by simp)
    cases hv : validate r with
    | ok k =>
      have hOk : exceptToOption (validate r) = some k := by rw [hv]; rfl
      simp only [List.filterMap_cons, hOk, List.length_cons]
      rw [ih (fun x hx => h x (by simp [hx]))]
    | error e =>
      rw [hv] at hr
      simp [exceptIsOk] at hr

theorem kienzler_all_ok_no_errors (validate : RawRecord → Except String KienzlerInput)
    (suid : String) (raw : List RawRecord)
    (h : ∀ r ∈ raw, exceptIsOk (validate r) = true) :
    raw.filterMap (kienzlerErr validate suid) = [] := by
  induction raw with
  | nil => simp
  | cons r rest ih =>
    have hr := h r (by simp)
    cases hv : validate r with
    | ok k =>
      have hErr : kienzlerErr validate suid r = none := by unfold kienzlerErr; rw [hv]
      simp only [List.filterMap_cons, hErr]
      exact ih (fun x hx => h x (by simp [hx]))
    | error e =>
      rw [hv] at hr
      simp [exceptIsOk] at hr

theorem pythonRange_zero (s : Nat) (hs : 0 < s) : pythonRange 0 s = [] := by
  unfold pythonRange
  have : (0 + s - 1) / s = 0 := Nat.div_eq_of_lt (by omega)
  rw [this]
  simp

theorem pythonRange_succ (n s : Nat) (hs : 0 < s) (hn : 0 < n) :
    pythonRange n s = 0 :: (pythonRange (n - s) s).map (fun i => i + s) := by
  unfold pythonRange
  have h1 : (n + s - 1) / s = (n - 1) / s + 1 := by
    have : n + s - 1 = (n - 1) + s := by omega
    rw [this, Nat.add_div_right _ hs]
  have h2 : (n - s + s - 1) / s = (n - 1) / s := by
    rcases le_or_lt n s with h | h
    · have e1 : n - s = 0 := by omega
      rw [e1]
      have : (0 + s - 1) / s = 0 := Nat.div_eq_of_lt (by omega)
      rw [this]
      exact (Nat.div_eq_of_lt (by omega)).symm
    · have : n - s + s - 1 = n - 1 := by omega
      rw [this]
  rw [h1, h2, List.range_succ_eq_map]
  simp only [List.map_cons, Nat.zero_mul, List.map_map]
  congr 1
  apply List.map_congr_left
  intro j _
  simp [Function.comp, Nat.succ_mul]

theorem chunks_flatten_aux {α : Type} (s : Nat) (hs : 0 < s) :
    ∀ (n : Nat) (l : List α), l.length = n →
      ((pythonRange l.length s).map (fun i => (l.drop i).take s)).flatten = l := by
  intro n
  induction n using Nat.strong_induction_on with
  | _ n ih =>
    intro l hl
    cases l with
    | nil => simp [pythonRange_zero s hs]
    | cons a t =>
      have hlen : 0 < (a :: t).length := by simp
      rw [pythonRange_succ _ s hs hlen]
      simp only [List.map_cons, List.map_map, List.flatten_cons, List.drop_zero]
      have hdlen : ((a :: t).drop s).length = (a :: t).length - s := by
        simp [List.length_drop]
      have hrec : ((pythonRange ((a :: t).length - s) s).map
          ((fun i => ((a :: t).drop i).take s) ∘ (fun i => i + s))).flatten =
            (a :: t).drop s := by
        have hsmall : ((a :: t).drop s).length < n := by
          rw [hdlen, ← hl]
          simp only [List.length_cons]
          omega
        have hthis := ih ((a :: t).drop s).length hsmall ((a :: t).drop s) rfl
        rw [hdlen] at hthis
        rw [← hthis]
        congr 1
        apply List.map_congr_left
        intro i _
        simp only [Function.comp_apply, List.drop_drop, Nat.add_comm]
      rw [hrec, List.take_append_drop]

theorem chunks_flatten {α : Type} (s : Nat) (hs : 0 < s) (l : List α) :
    ((pythonRange l.length s).map (fun i => (l.drop i).take s)).flatten = l :=
  chunks_flatten_aux s hs l.length l rfl

theorem foldl_append_eq_flatten {β γ : Type} (f : γ → List β) (l : List γ)
    (init : List β) :
    l.foldl (fun acc i => acc ++ f i) init = init ++ (l.map f).flatten := by
  induction l generalizing init with
  | nil => simp
  | cons a t ih => simp [ih, List.append_assoc]

theorem roundHalfEven_dist (y : ℚ) : |y - roundHalfEven y| ≤ 1 / 2 := by
  unfold roundHalfEven
  have h0 : (⌊y⌋ : ℚ) ≤ y := Int.floor_le y
  have h1 : y < ⌊y⌋ + 1 := Int.lt_floor_add_one y
  split
  · rename_i hlt
    rw [abs_le]
    constructor <;> linarith
  · rename_i hge
    split
    · rename_i h2
      rw [abs_le]
      constructor <;> push_cast <;> linarith
    · rename_i h2
      split <;> rw [abs_le] <;> constructor <;> push_cast <;>
        linarith [not_lt.mp hge, not_lt.mp h2]

theorem roundHalfEven_even_result (y : ℚ)
    (hge : ¬ y - ⌊y⌋ < 1 / 2) (hgt : ¬ 1 / 2 < y - ⌊y⌋) :
    Even (roundHalfEven y) := by
  unfold roundHalfEven
  rw [if_neg hge, if_neg hgt]
  split
  · rename_i hev
    rwa [Int.even_iff]
  · rename_i hev
    rw [Int.even_add_one, Int.even_iff]
    exact hev

theorem roundHalfEven_tie_even (y : ℚ) (h : |y - roundHalfEven y| = 1 / 2) :
    Even (roundHalfEven y) := by
  have h0 : (⌊y⌋ : ℚ) ≤ y := Int.floor_le y
  have h1 : y < ⌊y⌋ + 1 := Int.lt_floor_add_one y
  by_cases hge : y - ⌊y⌋ < 1 / 2
  · exfalso
    rw [show roundHalfEven y = ⌊y⌋ from by unfold roundHalfEven; rw [if_pos hge]] at h
    rw [abs_of_nonneg (by linarith)] at h
    exact absurd h (ne_of_lt hge)
  · by_cases hgt : 1 / 2 < y - ⌊y⌋
    · exfalso
      rw [show roundHalfEven y = ⌊y⌋ + 1 from by
        unfold roundHalfEven; rw [if_neg hge, if_pos hgt]] at h
      rw [abs_of_nonpos (by push_cast; linarith)] at h
      push_cast at h
      linarith
    · exact roundHalfEven_even_result y hge hgt

/-- C10: `BfrkBasePushConverter.get_realtime_parking_sites` returns two empty
lists for every converter instance and state: no realtime records, no errors. -/
theorem bfrk_realtime_always_empty (c : BfrkConverterState) :
    bfrkGetRealtimeParkingSites c = ([], []) := rfl

/-- C8: the source-enum to canonical-enum mappings are total with asymmetric
fallbacks: every `RadvisParkingSiteType` without an explicit dictionary entry
(exactly `SONSTIGE`) maps to `ParkingSiteType.OTHER`, while
`RadvisSupervisionType.UNBEKANNT` maps to `none` — never to an unknown
supervision value — leaving the canonical supervision field unset. -/
theorem radvis_enum_mapping_fallbacks :
    (∀ t : RadvisParkingSiteType, radvisParkingSiteTypeMap t = none →
      t.to_parking_site_type = ParkingSiteType.OTHER) ∧
    (∀ t : RadvisParkingSiteType, radvisParkingSiteTypeMap t = none ↔
      t = RadvisParkingSiteType.SONSTIGE) ∧
    RadvisParkingSiteType.SONSTIGE.to_parking_site_type = ParkingSiteType.OTHER ∧
    RadvisSupervisionType.UNBEKANNT.to_supervision_type = none ∧
    (∀ t : RadvisSupervisionType, t.to_supervision_type ≠ some SupervisionType.UNKNOWN) := by
  refine ⟨?_, ?_, rfl, rfl, ?_⟩
  · intro t h
    unfold RadvisParkingSiteType.to_parking_site_type
    rw [h]
    rfl
  · intro t
    cases t <;> simp [radvisParkingSiteTypeMap]
  · intro t
    cases t <;> simp [RadvisSupervisionType.to_supervision_type, radvisSupervisionMap]

/-- Witness for C8: the fallback arm and the `None` supervision result at
concrete enum values. -/
theorem radvis_enum_mapping_fallbacks_witness :
    RadvisParkingSiteType.SONSTIGE.to_parking_site_type = ParkingSiteType.OTHER ∧
    RadvisSupervisionType.UNBEKANNT.to_supervision_type ≠ some SupervisionType.UNKNOWN :=
  ⟨radvis_enum_mapping_fallbacks.1 RadvisParkingSiteType.SONSTIGE (by decide),
   radvis_enum_mapping_fallbacks.2.2.2.2 RadvisSupervisionType.UNBEKANNT⟩

/-- C4: both record loops accumulate per-record validation errors and never
abort: the outputs are exactly the per-record successes and the per-record
errors (so every remaining record of the batch is still processed), and each
input record ends up in exactly one of the two returned lists. -/
theorem converter_validation_error_accumulation :
    (∀ (validate : RawRecord → Except String KienzlerInput) (suid : String)
      (raw : List RawRecord),
      kienzlerParkingSites validate suid raw =
        (raw.filterMap (fun r => exceptToOption (validate r)),
         raw.filterMap (kienzlerErr validate suid)) ∧
      (kienzlerParkingSites validate suid raw).1.length +
        (kienzlerParkingSites validate suid raw).2.length = raw.length) ∧
    (∀ (α : Type) (suid : String) (validate : RawRecord → Except String α)
      (toStatic : α → StaticParkingSiteInput) (dicts : List RawRecord),
      bfrkGetStaticParkingSites suid validate toStatic dicts =
        (dicts.filterMap (fun r => (exceptToOption (validate r)).map toStatic),
         dicts.filterMap (bfrkErr validate suid)) ∧
      (bfrkGetStaticParkingSites suid validate toStatic dicts).1.length +
        (bfrkGetStaticParkingSites suid validate toStatic dicts).2.length = dicts.length) := by
  constructor
  · intro validate suid raw
    refine ⟨kienzlerParkingSites_eq validate suid raw, ?_⟩
    rw [kienzlerParkingSites_eq validate suid raw]
    exact kienzler_counts validate suid raw
  · intro α suid validate toStatic dicts
    refine ⟨bfrkGetStaticParkingSites_eq suid validate toStatic dicts, ?_⟩
    rw [bfrkGetStaticParkingSites_eq suid validate toStatic dicts]
    exact bfrk_counts validate toStatic suid dicts

/-- C9: `_request` splits the configured id list into consecutive chunks of
at most 25 ids, issues `⌈n / 25⌉` requests covering every configured id
exactly once in the original order, and concatenates the per-chunk responses
in chunk order. -/
theorem kienzler_request_chunking (fetch : List String → List RawRecord) (cfg : String) :
    kienzlerRequest fetch cfg = ((kienzlerChunks cfg).map fetch).flatten ∧
    (kienzlerChunks cfg).flatten = cfg.splitOn "," ∧
    (kienzlerChunks cfg).all (fun c => c.length ≤ 25) = true ∧
    (kienzlerChunks cfg).length = ((cfg.splitOn ",").length + 24) / 25 := by
  refine ⟨?_, ?_, ?_, ?_⟩
  · unfold kienzlerRequest kienzlerChunks
    rw [foldl_append_eq_flatten]
    simp only [List.nil_append, List.map_map, Function.comp_def]
  · unfold kienzlerChunks
    exact chunks_flatten 25 (by omega) (cfg.splitOn ",")
  · rw [List.all_eq_true]
    intro c hc
    unfold kienzlerChunks at hc
    rw [List.mem_map] at hc
    obtain ⟨i, -, rfl⟩ := hc
    simp
  · unfold kienzlerChunks pythonRange
    simp only [List.length_map, List.length_range]
    omega

/-- C1: the merge step of `get_static_parking_sites` is one-directional:
every canonical field that is populated before the merge keeps its value
regardless of the matching overlay record's content, and every merged output
record is either a pass-through or the `extend` of a pre-merge record with
its overlay counterpart. -/
theorem kienzler_merge_preserves_nonempty_fields :
    (∀ c o : StaticParkingSiteInput,
      (extendStatic c o).uid = c.uid ∧
      (c.name ≠ none → (extendStatic c o).name = c.name) ∧
      (c.operator_name ≠ none → (extendStatic c o).operator_name = c.operator_name) ∧
      (c.description ≠ none → (extendStatic c o).description = c.description) ∧
      (c.address ≠ none → (extendStatic c o).address = c.address) ∧
      (c.lat ≠ none → (extendStatic c o).lat = c.lat) ∧
      (c.lon ≠ none → (extendStatic c o).lon = c.lon) ∧
      (c.capacity ≠ none → (extendStatic c o).capacity = c.capacity) ∧
      (c.capacity_charging ≠ none →
        (extendStatic c o).capacity_charging = c.capacity_charging) ∧
      (c.type ≠ none → (extendStatic c o).type = c.type) ∧
      (c.purpose ≠ none → (extendStatic c o).purpose = c.purpose) ∧
      (c.supervision_type ≠ none →
        (extendStatic c o).supervision_type = c.supervision_type) ∧
      (c.is_covered ≠ none → (extendStatic c o).is_covered = c.is_covered) ∧
      (c.related_location ≠ none →
        (extendStatic c o).related_location = c.related_location) ∧
      (c.group_uid ≠ none → (extendStatic c o).group_uid = c.group_uid) ∧
      (c.tags ≠ [] → (extendStatic c o).tags = c.tags) ∧
      (c.has_realtime_data ≠ none →
        (extendStatic c o).has_realtime_data = c.has_realtime_data) ∧
      (c.public_url ≠ none → (extendStatic c o).public_url = c.public_url) ∧
      (c.static_data_updated_at ≠ none →
        (extendStatic c o).static_data_updated_at = c.static_data_updated_at)) ∧
    (∀ (validate : RawRecord → Except String KienzlerInput) (suid purl : String)
      (raw : List RawRecord)
      (geoRes : List StaticParkingSiteInput × List ImportParkingSiteException)
      (s : StaticParkingSiteInput),
      s ∈ (kienzlerGetStaticParkingSites validate suid purl true raw geoRes).1 →
      ∃ k, k ∈ (kienzlerParkingSites validate suid raw).1 ∧
        (s = k.to_static_parking_site purl ∨
          ∃ g, geoLookup geoRes.1 k.id = some g ∧
            s = extendStatic (k.to_static_parking_site purl) g)) := by
  constructor
  · intro c o
    refine ⟨rfl, ?_, ?_, ?_, ?_, ?_, ?_, ?_, ?_, ?_, ?_, ?_, ?_, ?_, ?_, ?_, ?_, ?_, ?_⟩
    all_goals intro h
    all_goals first
      | exact fillOpt_of_ne_none h _
      | exact if_neg h
  · intro validate suid purl raw geoRes s hs
    have hmap : (kienzlerGetStaticParkingSites validate suid purl true raw geoRes).1 =
        (kienzlerParkingSites validate suid raw).1.map (fun k =>
          match geoLookup geoRes.1 k.id with
          | none => k.to_static_parking_site purl
          | some g => extendStatic (k.to_static_parking_site purl) g) := rfl
    rw [hmap, List.mem_map] at hs
    obtain ⟨k, hk, hfk⟩ := hs
    refine ⟨k, hk, ?_⟩
    cases hl : geoLookup geoRes.1 k.id with
    | none =>
      left
      rw [hl] at hfk
      exact hfk.symm
    | some g =>
      right
      rw [hl] at hfk
      exact ⟨g, rfl, hfk.symm⟩

/-- Witness for C1: a canonical record with a populated name keeps it across
a merge with an overlay record. -/
theorem kienzler_merge_preserves_nonempty_fields_witness :
    (extendStatic ({ uid := "id1", name := some "Box id1" } : StaticParkingSiteInput)
      (geoOverlayEx "id1" 49 8)).name = some "Box id1" :=
  (kienzler_merge_preserves_nonempty_fields.1
    ({ uid := "id1", name := some "Box id1" } : StaticParkingSiteInput)
    (geoOverlayEx "id1" 49 8)).2.1 (by decide)

/-- C6: a canonical record whose identifier has no entry in the overlay index
passes through the merge loop unchanged, and the miss adds no error. -/
theorem kienzler_overlay_miss_passthrough
    (validate : RawRecord → Except String KienzlerInput) (suid purl : String)
    (raw : List RawRecord)
    (geoRes : List StaticParkingSiteInput × List ImportParkingSiteException)
    (i : Nat) (k : KienzlerInput)
    (hk : (kienzlerParkingSites validate suid raw).1[i]? = some k)
    (hmiss : geoLookup geoRes.1 k.id = none) :
    (kienzlerGetStaticParkingSites validate suid purl true raw geoRes).1[i]? =
      some (k.to_static_parking_site purl) ∧
    (kienzlerGetStaticParkingSites validate suid purl true raw geoRes).2 =
      (kienzlerParkingSites validate suid raw).2 ++ geoRes.2 := by
  have hmap : (kienzlerGetStaticParkingSites validate suid purl true raw geoRes).1 =
      (kienzlerParkingSites validate suid raw).1.map (fun k =>
        match geoLookup geoRes.1 k.id with
        | none => k.to_static_parking_site purl
        | some g => extendStatic (k.to_static_parking_site purl) g) := rfl
  constructor
  · rw [hmap, List.getElem?_map, hk]
    simp [hmiss]
  · rfl

/-- Witness for C6: a single validated record with no overlay entry is
returned unchanged by the overlay-enabled orchestrator. -/
theorem kienzler_overlay_miss_passthrough_witness :
    (kienzlerGetStaticParkingSites validateKienzler "kienzler_bike_and_ride"
        "https://example.org" true [kienzlerRawOk "id1"] ([], [])).1[0]? =
      some (KienzlerInput.to_static_parking_site
        { id := "id1", name := "Box id1", capacity := 10, free := 2 } "https://example.org") :=
  (kienzler_overlay_miss_passthrough validateKienzler "kienzler_bike_and_ride"
    "https://example.org" [kienzlerRawOk "id1"] ([], []) 0
    { id := "id1", name := "Box id1", capacity := 10, free := 2 }
    (by decide) (by decide)).1

/-- C5: Scenario C.  In a batch of 5 records where exactly the third holds a
string in the required numeric `capacity` field, the converter returns 4
canonical records and exactly one `ImportParkingSiteException` whose
`parking_site_uid` is the malformed record's `uid` value `id3`. -/
theorem kienzler_scenario_c :
    (kienzlerGetStaticParkingSites validateKienzler "kienzler_bike_and_ride"
      "https://www.bikeandridebox.de" false scenarioCBatch ([], [])).1.length = 4 ∧
    (kienzlerGetStaticParkingSites validateKienzler "kienzler_bike_and_ride"
      "https://www.bikeandridebox.de" false scenarioCBatch ([], [])).2 =
      [{ source_uid := "kienzler_bike_and_ride",
         parking_site_uid := some (Value.str "id3"),
         message := "validation error: invalid field types" }] := by
  constructor
  · rfl
  · rfl

/-- C2: Scenario B.  With overlay usage configured, a batch of 5 records that
all validate, together with overlay data matching every record's identifier,
yields exactly 5 canonical records and an empty error list; each record is
the merge of its pre-merge form with its overlay counterpart, and the merge
populates every previously-unset canonical field from the corresponding
overlay field. -/
theorem kienzler_overlay_scenario_b
    (validate : RawRecord → Except String KienzlerInput) (suid purl : String)
    (raw : List RawRecord) (geo : List StaticParkingSiteInput)
    (hlen : raw.length = 5)
    (hok : ∀ r ∈ raw, exceptIsOk (validate r) = true)
    (hmatch : ∀ k ∈ (kienzlerParkingSites validate suid raw).1,
      (geoLookup geo k.id).isSome = true) :
    (kienzlerGetStaticParkingSites validate suid purl true raw (geo, [])).1.length = 5 ∧
    (kienzlerGetStaticParkingSites validate suid purl true raw (geo, [])).2 = [] ∧
    (∀ (i : Nat) (k : KienzlerInput),
      (kienzlerParkingSites validate suid raw).1[i]? = some k →
      ∃ g, geoLookup geo k.id = some g ∧
        (kienzlerGetStaticParkingSites validate suid purl true raw (geo, [])).1[i]? =
          some (extendStatic (k.to_static_parking_site purl) g)) ∧
    (∀ c o : StaticParkingSiteInput,
      (c.name = none → (extendStatic c o).name = o.name) ∧
      (c.operator_name = none → (extendStatic c o).operator_name = o.operator_name) ∧
      (c.description = none → (extendStatic c o).description = o.description) ∧
      (c.address = none → (extendStatic c o).address = o.address) ∧
      (c.lat = none → (extendStatic c o).lat = o.lat) ∧
      (c.lon = none → (extendStatic c o).lon = o.lon) ∧
      (c.capacity = none → (extendStatic c o).capacity = o.capacity) ∧
      (c.capacity_charging = none →
        (extendStatic c o).capacity_charging = o.capacity_charging) ∧
      (c.type = none → (extendStatic c o).type = o.type) ∧
      (c.purpose = none → (extendStatic c o).purpose = o.purpose) ∧
      (c.supervision_type = none →
        (extendStatic c o).supervision_type = o.supervision_type) ∧
      (c.is_covered = none → (extendStatic c o).is_covered = o.is_covered) ∧
      (c.related_location = none →
        (extendStatic c o).related_location = o.related_location) ∧
      (c.group_uid = none → (extendStatic c o).group_uid = o.group_uid) ∧
      (c.tags = [] → (extendStatic c o).tags = o.tags) ∧
      (c.has_realtime_data = none →
        (extendStatic c o).has_realtime_data = o.has_realtime_data) ∧
      (c.public_url = none → (extendStatic c o).public_url = o.public_url) ∧
      (c.static_data_updated_at = none →
        (extendStatic c o).static_data_updated_at = o.static_data_updated_at)) := by
  have hmap : (kienzlerGetStaticParkingSites validate suid purl true raw (geo, [])).1 =
      (kienzlerParkingSites validate suid raw).1.map (fun k =>
        match geoLookup geo k.id with
        | none => k.to_static_parking_site purl
        | some g => extendStatic (k.to_static_parking_site purl) g) := rfl
  have h1 : (kienzlerParkingSites validate suid raw).1 =
      raw.filterMap (fun r => exceptToOption (validate r)) := by
    rw [kienzlerParkingSites_eq]
  have h2 : (kienzlerParkingSites validate suid raw).2 =
      raw.filterMap (kienzlerErr validate suid) := by
    rw [kienzlerParkingSites_eq]
  refine ⟨?_, ?_, ?_, ?_⟩
  · rw [hmap, List.length_map, h1]
    rw [kienzler_all_ok_length validate raw hok]
    exact hlen
  · have herr : (kienzlerGetStaticParkingSites validate suid purl true raw (geo, [])).2 =
        (kienzlerParkingSites validate suid raw).2 ++ [] := rfl
    rw [herr, h2, kienzler_all_ok_no_errors validate suid raw hok]
    rfl
  · intro i k hk
    have hkmem : k ∈ (kienzlerParkingSites validate suid raw).1 := by
      obtain ⟨hlt, hkeq⟩ := List.getElem?_eq_some_iff.mp hk
      rw [← hkeq]
      exact List.getElem_mem hlt
    obtain ⟨g, hg⟩ := Option.isSome_iff_exists.mp (hmatch k hkmem)
    refine ⟨g, hg, ?_⟩
    rw [hmap, List.getElem?_map, hk]
    simp [hg]
  · intro c o
    refine ⟨?_, ?_, ?_, ?_, ?_, ?_, ?_, ?_, ?_, ?_, ?_, ?_, ?_, ?_, ?_, ?_, ?_, ?_⟩
    all_goals intro h
    all_goals simp [extendStatic, h, fillOpt]

/-- Witness for C2: the concrete 5-record batch with full overlay coverage
yields 5 records and no errors. -/
theorem kienzler_overlay_scenario_b_witness :
    (kienzlerGetStaticParkingSites validateKienzler "kienzler_bike_and_ride"
      "https://www.bikeandridebox.de" true scenarioBBatch (scenarioBGeo, [])).1.length = 5 ∧
    (kienzlerGetStaticParkingSites validateKienzler "kienzler_bike_and_ride"
      "https://www.bikeandridebox.de" true scenarioBBatch (scenarioBGeo, [])).2 = [] := by
  have h := kienzler_overlay_scenario_b validateKienzler "kienzler_bike_and_ride"
    "https://www.bikeandridebox.de" scenarioBBatch scenarioBGeo rfl (by decide) (by decide)
  exact ⟨h.1, h.2.1⟩

/-- Counterexample for C3: the two records emitted for a locker-reporting
source record also differ in the `name` and `type` fields, which are outside
the claimed set {identifier, group-identifier, purpose, capacity}, so the
records do not differ *only* in those four fields. -/
theorem radvis_fanout_counterexample :
    (radvisPropsEx.to_dicts 0).length = 2 ∧
    dget ((radvisPropsEx.to_dicts 0).getD 0 []) "name" = some (.s "Abstellanlage") ∧
    dget ((radvisPropsEx.to_dicts 0).getD 1 []) "name" = some (.s "Schliessfach") ∧
    dget ((radvisPropsEx.to_dicts 0).getD 0 []) "name" ≠
      dget ((radvisPropsEx.to_dicts 0).getD 1 []) "name" ∧
    dget ((radvisPropsEx.to_dicts 0).getD 0 []) "type" = some (.pst .STANDS) ∧
    dget ((radvisPropsEx.to_dicts 0).getD 1 []) "type" = some (.pst .LOCKBOX) := by
  refine ⟨rfl, rfl, rfl, ?_, rfl, rfl⟩
  decide

/-- C3 (amended): a source record reporting N ancillary locker facilities
(N = 0 or 1) yields exactly 1 + N records; the ancillary record's identifier
is the parent identifier plus the `-lockbox` suffix, its group identifier is
the parent identifier, its purpose is the ancillary type and its capacity the
ancillary count, and the base-data fields (operator, description, realtime
flag, coverage, related location, supervision, tags, timestamp) are duplicated
verbatim — while identifier, name, type, capacity, charging capacity, purpose
and group identifier are the fields allowed to differ. -/
theorem radvis_fanout_amended :
    (∀ (p : RadvisFeaturePropertiesInput) (now : Nat),
      intTruthy p.anzahl_schliessfaecher = false →
      (p.to_dicts now).length = 1) ∧
    (∀ (p : RadvisFeaturePropertiesInput) (now : Nat) (k : Int),
      p.anzahl_schliessfaecher = some k → k ≠ 0 →
      ∃ d0 d1, p.to_dicts now = [d0, d1] ∧
        dget d1 "uid" = some (.s (toString p.id ++ "-lockbox")) ∧
        dget d1 "group_uid" = some (.s (toString p.id)) ∧
        dget d0 "group_uid" = some (.s (toString p.id)) ∧
        dget d1 "purpose" = some (.pt .ITEM) ∧
        dget d1 "capacity" = some (.oi (some k)) ∧
        dget d0 "operator_name" = dget d1 "operator_name" ∧
        dget d0 "description" = dget d1 "description" ∧
        dget d0 "has_realtime_data" = dget d1 "has_realtime_data" ∧
        dget d0 "is_covered" = dget d1 "is_covered" ∧
        dget d0 "related_location" = dget d1 "related_location" ∧
        dget d0 "supervision_type" = dget d1 "supervision_type" ∧
        dget d0 "tags" = dget d1 "tags" ∧
        dget d0 "static_data_updated_at" = dget d1 "static_data_updated_at") := by
  constructor
  · intro p now hfalse
    unfold RadvisFeaturePropertiesInput.to_dicts
    rw [if_neg (by simp [hfalse])]
    rfl
  · intro p now k hk hk0
    have ht : intTruthy p.anzahl_schliessfaecher = true := by
      rw [hk]
      simp [intTruthy, hk0]
    unfold RadvisFeaturePropertiesInput.to_dicts
    rw [if_pos ht]
    refine ⟨_, _, rfl, rfl, rfl, rfl, rfl, ?_, rfl, rfl, rfl, rfl, rfl, rfl, rfl, rfl⟩
    rw [← hk]
    rfl

/-- Witness for C3: the fan-out record counts at concrete inputs with and
without a locker count. -/
theorem radvis_fanout_amended_witness :
    (radvisPropsEx.to_dicts 0).length = 2 ∧
    (radvisNoLockboxEx.to_dicts 0).length = 1 := by
  constructor
  · obtain ⟨d0, d1, heq, -⟩ := radvis_fanout_amended.2 radvisPropsEx 0 4 rfl (by decide)
    rw [heq]
    rfl
  · exact radvis_fanout_amended.1 radvisNoLockboxEx 0 (by decide)

/-- C7: every mapped record's coordinates are the inverse projection of the
feature's `(lon, lat)` pair, quantized per axis to exactly 7 fractional
decimal digits (the quantized value times `10 ^ 7` is an integer) under
round-half-even semantics (distance at most half a unit in the last place,
ties resolved to an even digit), and the whole mapping is a function of its
inputs: identical inputs yield identical decimal outputs. -/
theorem radvis_projection_quantization :
    (∀ (projInv : ℚ × ℚ → ℚ × ℚ) (f : RadvisFeatureInput) (now : Nat)
      (s : StaticParkingSiteInput),
      s ∈ f.to_static_parking_site_inputs_with_proj projInv now →
      s.lon = some (quantize7 (projInv f.geometry.coordinates).1) ∧
      s.lat = some (quantize7 (projInv f.geometry.coordinates).2)) ∧
    (∀ x : ℚ, ∃ z : ℤ, quantize7 x * 10 ^ 7 = (z : ℚ)) ∧
    (∀ x : ℚ, |x * 10 ^ 7 - roundHalfEven (x * 10 ^ 7)| ≤ 1 / 2) ∧
    (∀ x : ℚ, |x * 10 ^ 7 - roundHalfEven (x * 10 ^ 7)| = 1 / 2 →
      Even (roundHalfEven (x * 10 ^ 7))) ∧
    (∀ (projInv : ℚ × ℚ → ℚ × ℚ) (f g : RadvisFeatureInput) (now : Nat),
      f.geometry = g.geometry → f.properties = g.properties →
      f.to_static_parking_site_inputs_with_proj projInv now =
        g.to_static_parking_site_inputs_with_proj projInv now) := by
  refine ⟨?_, ?_, ?_, ?_, ?_⟩
  · intro projInv f now s hs
    unfold RadvisFeatureInput.to_static_parking_site_inputs_with_proj at hs
    rw [List.mem_map] at hs
    obtain ⟨d, -, rfl⟩ := hs
    constructor <;> simp [staticFromRadvisDict]
  · intro x
    refine ⟨roundHalfEven (x * 10 ^ 7), ?_⟩
    unfold quantize7
    field_simp
  · intro x
    exact roundHalfEven_dist (x * 10 ^ 7)
  · intro x h
    exact roundHalfEven_tie_even (x * 10 ^ 7) h
  · intro projInv f g now hgeo hprops
    cases f
    cases g
    simp only at hgeo hprops
    rw [hgeo, hprops]

/-- Witness for C7: the first mapped record of a concrete feature carries the
quantized inverse-projected coordinates, and a concrete half-unit tie rounds
to an even multiple. -/
theorem radvis_projection_quantization_witness :
    (∃ s, s ∈ RadvisFeatureInput.to_static_parking_site_inputs_with_proj
        radvisFeatureEx (fun c => c) 0 ∧
      s.lon = some (quantize7 ((fun c : ℚ × ℚ => c) radvisFeatureEx.geometry.coordinates).1) ∧
      s.lat = some (quantize7 ((fun c : ℚ × ℚ => c) radvisFeatureEx.geometry.coordinates).2)) ∧
    Even (roundHalfEven ((1 / 20000000 : ℚ) * 10 ^ 7)) := by
  constructor
  · have h0 : 0 < (RadvisFeatureInput.to_static_parking_site_inputs_with_proj
        radvisFeatureEx (fun c => c) 0).length := by decide
    refine ⟨_, List.getElem_mem h0, ?_⟩
    exact radvis_projection_quantization.1 (fun c => c) radvisFeatureEx 0 _
      (List.getElem_mem h0)
  · apply radvis_projection_quantization.2.2.2.1 (1 / 20000000 : ℚ)
    have hx : (1 / 20000000 : ℚ) * 10 ^ 7 = 1 / 2 := by norm_num
    have hfloor : ⌊(1 / 2 : ℚ)⌋ = 0 := by norm_num
    have hrhe : roundHalfEven (1 / 2 : ℚ) = 0 := by
      unfold roundHalfEven
      rw [hfloor]
      norm_num
    rw [hx, hrhe]
    norm_num

end ParkApi
